import Mathlib

/-
Verification of the husky datagrid and smart-content UI components.

The two JavaScript modules (husky_components/datagrid/main.js and the
smart-content component) are embedded shallowly: each DOM event handler
becomes a pure function from the component state it reads to the state it
writes, together with the list of events it emits on the sandbox event bus,
the log lines it writes and the ajax requests it issues.  DOM-only effects
(adding css classes, replacing markup) are not part of the state; the value
a handler reads from the DOM (the data-id of the clicked row, whether a
header span carries the ascending-sort class) is passed as an argument.
JavaScript numbers that hold item ids or page numbers are modelled as Int;
the JavaScript truthiness of such a number is the test against 0 (NaN is
not modelled), and a possibly-undefined number is an Option Int whose
truthiness is false at none.
-/

/-- The JavaScript test url.indexOf(c) against -1: whether the string
contains the character (walked over the character list). -/
def strContainsChar (s : String) (c : Char) : Bool :=
  s.data.contains c

namespace Datagrid

/-- Events the datagrid emits on the sandbox event bus (the husky.datagrid
namespace of main.js).  An item event carries the id of the row when the row
has a truthy data-id; itemSelectNoId stands for the emission that passes the
raw DOM event instead. -/
inductive Event where
  | itemDeselect (id : Int)
  | itemSelect (id : Int)
  | itemSelectNoId
  | allDeselect
  | allSelect (ids : List Int)
  | rowRemoved (id : Int)
  | dataSort
  deriving DecidableEq, Repr

/-- The selection state of the datagrid: the fields this.allItemIds and
this.selectedItemIds that the selection handlers read and write. -/
structure SelState where
  allItemIds : List Int
  selectedItemIds : List Int
  deriving DecidableEq, Repr

/-- Array.prototype.indexOf for a list of numbers: the index of the first
occurrence, -1 when absent. -/
def jsIndexOf (l : List Int) (x : Int) : Int :=
  match l with
  | [] => -1
  | a :: rest =>
    if a = x then 0
    else if jsIndexOf rest x = -1 then -1 else jsIndexOf rest x + 1

/-- The checkbox branch of selectItem (main.js:595-620).  itemId is the
data-id of the row of the clicked input; a missing data-id is modelled as
the falsy 0.  A selected id is spliced out at its indexOf position, which
removes exactly the first occurrence (List.erase); an unselected truthy id
is pushed. -/
def selectItemCheckbox (s : SelState) (itemId : Int) : SelState × List Event :=
  if jsIndexOf s.selectedItemIds itemId > -1 then
    ({ s with selectedItemIds := s.selectedItemIds.erase itemId },
      [Event.itemDeselect itemId])
  else if itemId != 0 then
    ({ s with selectedItemIds := s.selectedItemIds ++ [itemId] },
      [Event.itemSelect itemId])
  else
    (s, [Event.itemSelectNoId])

/-- The radio branch of selectItem (main.js:622-640): pops the previous
selection (Array.prototype.pop takes the last element, undefined on an
empty array), emits item.deselect for it when it is truthy and above -1,
then pushes the clicked rows id when truthy. -/
def selectItemRadio (s : SelState) (itemId : Int) : SelState × List Event :=
  let oldSelectionId := s.selectedItemIds.getLast?
  let rest := s.selectedItemIds.dropLast
  let deselectEvents :=
    match oldSelectionId with
    | some old => if old != 0 && old > -1 then [Event.itemDeselect old] else []
    | none => []
  if itemId != 0 then
    ({ s with selectedItemIds := rest ++ [itemId] },
      deselectEvents ++ [Event.itemSelect itemId])
  else
    ({ s with selectedItemIds := rest },
      deselectEvents ++ [Event.itemSelectNoId])

/-- selectAllItems (main.js:647-667).  sandbox.util.compare is the host
framework deep comparison of the two arrays, modelled as list equality;
slice(0) is a copy, equal in value to allItemIds. -/
def selectAllItems (s : SelState) : SelState × List Event :=
  if s.selectedItemIds = s.allItemIds then
    ({ s with selectedItemIds := [] }, [Event.allDeselect])
  else
    ({ s with selectedItemIds := s.allItemIds },
      [Event.allSelect s.allItemIds])

/-- removeRow (main.js:707-730) on the id resolved from the event: splices
the id out of selectedItemIds at its indexOf position when that is at least
0, then emits husky.datagrid.row.removed once.  allItemIds is not touched. -/
def removeRow (s : SelState) (id : Int) : SelState × List Event :=
  if jsIndexOf s.selectedItemIds id ≥ 0 then
    ({ s with selectedItemIds := s.selectedItemIds.erase id },
      [Event.rowRemoved id])
  else
    (s, [Event.rowRemoved id])

/-- resetItemSelection (main.js:572-575): empties both arrays. -/
def resetItemSelection (_s : SelState) : SelState :=
  { allItemIds := [], selectedItemIds := [] }

/-- Selected ids are a subset of loaded ids. -/
def selectionSubset (s : SelState) : Prop :=
  ∀ id ∈ s.selectedItemIds, id ∈ s.allItemIds

/-- A data row.  Rows carry arbitrary attributes in the source; the claims
only depend on the id, a number whose JavaScript truthiness is the test
against 0. -/
structure Row where
  id : Int
  deriving DecidableEq, Repr

/-- The sorting state this.sort: attr models this.sort.attribute (the word
attribute is reserved in Lean) and direction models this.sort.direction.
The css class names this.sort also holds are constants and stay out of the
model.  Lean option none stands for a field that is unset or null. -/
structure SortState where
  attr : Option String
  direction : Option String
  deriving DecidableEq, Repr

/-- this.data as the success callback of load builds it (main.js:258-272):
either the old-api response itself (which has items) or the object built
from a new-api response. -/
structure GridData where
  linksTruthy : Bool
  linksSortable : List (String × String)
  rows : List Row
  total : Int
  page : Int
  pages : Int
  pageSize : Option Int
  pageDisplay : Option Int
  deriving DecidableEq, Repr

/-- The slice of this.options the embedded operations read. -/
structure DatagridOptions where
  pagination : Bool
  pageSize : Option Int
  showPages : Option Int
  hasRowTemplate : Bool
  deriving DecidableEq, Repr

/-- The component state of the datagrid. -/
structure DatagridState where
  data : Option GridData
  allItemIds : List Int
  selectedItemIds : List Int
  sort : SortState
  deriving DecidableEq, Repr

/-- The params object passed to load: a url and, from changePage, a page
number (undefined elsewhere, modelled as none). -/
structure LoadParams where
  url : String
  page : Option Int
  deriving DecidableEq, Repr

/-- Truthiness of this.data and this.data.links together, the guard at the
top of getUrl (main.js:295). -/
def dataLinksTruthy (s : DatagridState) : Bool :=
  match s.data with
  | some d => d.linksTruthy
  | none => false

/-- getUrl (main.js:292-314): params.url unchanged when data links are
loaded or pagination is off or pageSize is not a truthy number; otherwise
pageSize is appended behind the delimiter chosen by whether the url already
contains a question mark, and the page parameter is appended when
params.page is greater than 1 (false for an undefined page). -/
def getUrl (o : DatagridOptions) (s : DatagridState) (params : LoadParams) : String :=
  if dataLinksTruthy s then params.url
  else
    match o.pageSize with
    | none => params.url
    | some ps =>
      if o.pagination && ps != 0 then
        let delimiter := if strContainsChar params.url '?' then "&" else "?"
        let url := params.url ++ delimiter ++ "pageSize=" ++ toString ps
        match params.page with
        | some p => if p > 1 then url ++ "&page=" ++ toString p else url
        | none => url
      else params.url

/-- An ajax failure as jQuery hands it to the error callback. -/
structure AjaxFailure where
  textStatus : String
  errorThrown : String
  deriving DecidableEq, Repr

/-- An ajax response, covering the old api (items set) and the new api
(_links, _embedded and the paging numbers). -/
structure AjaxResponse where
  items : Option (List Row)
  linksTruthy : Bool
  linksSortable : List (String × String)
  embedded : List Row
  total : Int
  page : Int
  pages : Int
  pageSize : Option Int
  deriving DecidableEq, Repr

/-- JavaScript a or b on numbers that may be undefined: a when truthy,
otherwise b (response.pageSize or options.paginationOptions.pageSize at
main.js:270). -/
def jsNumOr (a b : Option Int) : Option Int :=
  match a with
  | some n => if n != 0 then some n else b
  | none => b

/-- The JavaScript comparison params.page greater than 1 for a number that
may be undefined: false at none. -/
def jsGtOne : Option Int → Bool
  | some p => p > 1
  | none => false

/-- One step of a datagrid handler: the state it leaves, the events it
emits, the lines it logs and the ajax requests it issues. -/
structure GridStep where
  state : DatagridState
  events : List Event
  logs : List String
  requests : List String
  deriving Repr

/-- this.data as the success callback of load sets it: the old-api response
itself when response.items is set (such a response carries no _links, so
data.links stays falsy and pageDisplay unset), otherwise the object of
main.js:264-271 with pageSize defaulted from the options and pageDisplay
taken from options.paginationOptions.showPages. -/
def dataOfResponse (o : DatagridOptions) (r : AjaxResponse) : GridData :=
  match r.items with
  | some rows =>
      { linksTruthy := false, linksSortable := [], rows := rows,
        total := r.total, page := r.page, pages := r.pages,
        pageSize := r.pageSize, pageDisplay := none }
  | none =>
      { linksTruthy := r.linksTruthy, linksSortable := r.linksSortable,
        rows := r.embedded, total := r.total, page := r.page, pages := r.pages,
        pageSize := jsNumOr r.pageSize o.pageSize, pageDisplay := o.showPages }

/-- The ids prepareTableRows collects into this.allItemIds (main.js:466-484
and 491-509): the array is reset, and for each row the built-in template
path pushes parseInt(row.id) when row.id is truthy.  When options.template.row
is set, prepareTableRow returns the parsed custom template instead and never
registers an id. -/
def prepareTableRowsIds (hasRowTemplate : Bool) (rows : List Row) : List Int :=
  if hasRowTemplate then []
  else rows.filterMap (fun r => if r.id != 0 then some r.id else none)

/-- load (main.js:245-285) on the outcome of its single ajax request.  The
error callback writes three log lines and nothing else; the success callback
stores the response into this.data and re-renders, which rebuilds
this.allItemIds from the received rows.  selectedItemIds is not touched by
either callback. -/
def load (o : DatagridOptions) (s : DatagridState) (params : LoadParams)
    (outcome : Except AjaxFailure AjaxResponse) : GridStep :=
  match outcome with
  | Except.error e =>
      { state := s,
        events := [],
        logs := ["An error occured while fetching data from: " ++ getUrl o s params,
                 "textstatus: " ++ e.textStatus,
                 "errorthrown " ++ e.errorThrown],
        requests := [getUrl o s params] }
  | Except.ok response =>
      let d := dataOfResponse o response
      { state := { s with
                   data := some d,
                   allItemIds := prepareTableRowsIds o.hasRowTemplate d.rows },
        events := [],
        logs := [],
        requests := [getUrl o s params] }

/-- Reading a property of a plain JavaScript object modelled as an
association list (this.data.links.sortable maps column attributes to
uritemplate strings). -/
def jsObjectGet (assoc : List (String × String)) (key : String) : Option String :=
  (assoc.find? (fun kv => kv.fst == key)).map (fun kv => kv.snd)

/-- Truthiness of a string property that may be absent: false at none and
at the empty string. -/
def jsTruthyStr : Option String → Bool
  | some v => v != ""
  | none => false

/-- changeSorting (main.js:926-956).  attr is the data-attribute of
the clicked header (the empty string models a missing attribute, falsy);
spanHasAscClass tells whether the span inside the header carries
this.sort.ascClass.  When the attribute and its sortable link are truthy
the handler emits data.sort, sets sort.attribute and toggles
sort.direction; otherwise it does nothing. -/
def changeSorting (sort : SortState) (sortable : List (String × String))
    (attr : String) (spanHasAscClass : Bool) : SortState × List Event :=
  if attr != "" && jsTruthyStr (jsObjectGet sortable attr) then
    ({ attr := some attr,
       direction := some (if spanHasAscClass then "desc" else "asc") },
      [Event.dataSort])
  else (sort, [])

/-- One entry of the pagination list: the page number of the li element and
whether its class attribute carries is-selected (the selected entry renders
as class page is-selected bold, the others as class page). -/
structure PageItem where
  page : Int
  isSelected : Bool
  deriving DecidableEq, Repr

/-- The integers from a to b inclusive, empty when a exceeds b: the index
set of a JavaScript for loop from i = a while i <= b. -/
def intRange (a b : Int) : List Int :=
  (List.range (b + 1 - a).toNat).map (fun n : Nat => a + (n : Int))

/-- templates.paginationPageNavigation (main.js:1135-1161): one li entry
per loop iteration.  The first loop walks i from data.page up to
data.pagesDisplay marking the current page selected; rest is pagesDisplay
minus the entries made so far, and when positive a second loop prepends the
pages from page minus rest up to page minus 1. -/
def paginationPageNavigation (page pagesDisplay : Int) : List PageItem :=
  let pageItemsCurrentAfter :=
    (intRange page pagesDisplay).map
      (fun i => ({ page := i, isSelected := page == i } : PageItem))
  let rest := pagesDisplay - (pageItemsCurrentAfter.length : Int)
  let pageItemsBefore :=
    if rest > 0 then
      (intRange (page - rest) (page - 1)).map
        (fun i => ({ page := i, isSelected := false } : PageItem))
    else []
  pageItemsBefore ++ pageItemsCurrentAfter

end Datagrid

namespace SmartContent

/-- Events the smart-content component emits on the sandbox event bus
(husky.smart-content namespace of the source). -/
inductive Event where
  | dataChanged
  | dataRequest
  | dataRetrieved
  deriving DecidableEq, Repr

/-- One item of this.items as the content templates read it: the data gives
an id and a name per entry. -/
structure ContentItem where
  id : Int
  name : String
  deriving DecidableEq, Repr

/-- One li rendered from templates.contentItem: its data-id, the value span
and the one-based number in the num span. -/
structure ContentEntry where
  dataId : Int
  value : String
  num : Nat
  deriving DecidableEq, Repr

/-- What renderContent puts into the content container: the items list or
the no-content template. -/
inductive SmartContentView where
  | itemList (entries : List ContentEntry)
  | noContent
  deriving DecidableEq, Repr

/-- What renderContent does with the footer: renderFooter appends it,
detachFooter removes it. -/
inductive FooterAction where
  | rendered
  | detached
  deriving DecidableEq, Repr

/-- this.URI: the stored query string and the has-changed flag. -/
structure URIState where
  str : String
  hasChanged : Bool
  deriving DecidableEq, Repr

/-- The slice of this.options that setURI reads: the base url and the
parameter names. -/
structure SCOptions where
  url : String
  dataSourceParameter : String
  includeSubFoldersParameter : String
  categoryParameter : String
  tagsParameter : String
  sortByParameter : String
  sortMethodParameter : String
  presentAsParameter : String
  limitResultParameter : String
  deriving DecidableEq, Repr

/-- this.overlayData.  Each field is stored as the string JavaScript
coerces the value to when the uri fragments are joined (an array joins with
commas, a number or boolean prints itself, null prints null). -/
structure OverlayData where
  dataSource : String
  includeSubFolders : String
  category : String
  tags : String
  sortBy : String
  sortMethod : String
  presentAs : String
  limitResult : String
  deriving DecidableEq, Repr

/-- The component state of the smart content widget that the embedded
handlers read and write. -/
structure SCState where
  itemsVisible : Int
  items : List ContentItem
  URI : URIState
  deriving DecidableEq, Repr

/-- One step of a smart-content handler: state, emitted events, log lines,
issued ajax requests. -/
structure SCStep where
  state : SCState
  events : List Event
  logs : List String
  requests : List String
  deriving Repr

/-- The query string setURI builds (part_000:789-798): the option url, then
a question mark (or ampersand when the url already contains one), then the
eight parameters joined with ampersands. -/
def buildURI (o : SCOptions) (d : OverlayData) : String :=
  let delimiter := if strContainsChar o.url '?' then "&" else "?"
  String.join [o.url,
    delimiter, o.dataSourceParameter, "=", d.dataSource,
    "&", o.includeSubFoldersParameter, "=", d.includeSubFolders,
    "&", o.categoryParameter, "=", d.category,
    "&", o.tagsParameter, "=", d.tags,
    "&", o.sortByParameter, "=", d.sortBy,
    "&", o.sortMethodParameter, "=", d.sortMethod,
    "&", o.presentAsParameter, "=", d.presentAs,
    "&", o.limitResultParameter, "=", d.limitResult]

/-- setURI (part_000:788-809): when the newly built uri differs from
URI.str the data-changed event is emitted unless the stored uri is still
empty (startup), the new uri is stored and hasChanged set; otherwise only
hasChanged is cleared. -/
def setURI (o : SCOptions) (d : OverlayData) (s : SCState) : SCState × List Event :=
  let newURI := buildURI o d
  if newURI != s.URI.str then
    ({ s with URI := { str := newURI, hasChanged := true } },
      if s.URI.str != "" then [Event.dataChanged] else [])
  else
    ({ s with URI := { s.URI with hasChanged := false } }, [])

/-- loadContent (part_000:814-832) on the outcome of the request it may
issue.  Only when URI.hasChanged is true does it emit data-request and send
the ajax request for URI.str; the success callback stores the decoded
result list (data of options.resultKey) into this.items and emits
data-retrieved, the error callback only logs the error. -/
def loadContent (s : SCState) (outcome : Except String (List ContentItem)) : SCStep :=
  if s.URI.hasChanged = true then
    match outcome with
    | Except.ok dataItems =>
        { state := { s with items := dataItems },
          events := [Event.dataRequest, Event.dataRetrieved],
          logs := [],
          requests := [s.URI.str] }
    | Except.error e =>
        { state := s,
          events := [Event.dataRequest],
          logs := [e],
          requests := [s.URI.str] }
  else
    { state := s, events := [], logs := [], requests := [] }

/-- The loop of renderContent (part_000:479-485) started at index i: it
stops when the items run out or when the index reaches itemsVisible, and
renders item i as entry number i plus 1. -/
def renderContentEntries (i : Nat) (itemsVisible : Int) :
    List ContentItem → List ContentEntry
  | [] => []
  | item :: rest =>
    if (i : Int) < itemsVisible then
      { dataId := item.id, value := item.name, num := i + 1 }
        :: renderContentEntries (i + 1) itemsVisible rest
    else []

/-- renderFooter (part_000:513-531) clamps this.itemsVisible to the number
of items when there are fewer items than itemsVisible. -/
def renderFooterItemsVisible (s : SCState) : Int :=
  if (s.items.length : Int) < s.itemsVisible then (s.items.length : Int)
  else s.itemsVisible

/-- The result of renderContent: the state it leaves (renderFooter may
clamp itemsVisible), the view put into the content container and what
happened to the footer. -/
structure RenderStep where
  state : SCState
  view : SmartContentView
  footer : FooterAction
  deriving Repr

/-- Reference rendering of a run of items as entries numbered from i plus
1 upward; the loop of renderContent is proved to produce exactly this on
the front run of the items it visits. -/
def numberedEntries (i : Nat) : List ContentItem → List ContentEntry
  | [] => []
  | item :: rest =>
    { dataId := item.id, value := item.name, num := i + 1 }
      :: numberedEntries (i + 1) rest

/-- renderContent (part_000:470-496): with items present it renders the ul
of entries and the footer, otherwise the no-content template and detaches
the footer. -/
def renderContent (s : SCState) : RenderStep :=
  if s.items.length ≠ 0 then
    { state := { s with itemsVisible := renderFooterItemsVisible s },
      view := SmartContentView.itemList
        (renderContentEntries 0 s.itemsVisible s.items),
      footer := FooterAction.rendered }
  else
    { state := s, view := SmartContentView.noContent,
      footer := FooterAction.detached }

end SmartContent

namespace Datagrid

theorem jsIndexOf_ge_neg_one (l : List Int) (x : Int) : -1 ≤ jsIndexOf l x := by
  induction l with
  | nil => simp [jsIndexOf]
  | cons a rest ih =>
    simp only [jsIndexOf]
    split
    · omega
    · split
      · omega
      · omega

theorem jsIndexOf_eq_neg_one_iff (l : List Int) (x : Int) :
    jsIndexOf l x = -1 ↔ x ∉ l := by
  induction l with
  | nil => simp [jsIndexOf]
  | cons a rest ih =>
    simp only [jsIndexOf]
    split
    · rename_i h
      subst h
      simp
    · rename_i h
      have hge := jsIndexOf_ge_neg_one rest x
      split
      · rename_i hr
        simp only [List.mem_cons, not_or]
        constructor
        · intro _
          exact ⟨fun hxa => h hxa.symm, ih.mp hr⟩
        · intro _
          trivial
      · rename_i hr
        simp only [List.mem_cons, not_or]
        constructor
        · intro habs
          omega
        · intro ⟨_, hmem⟩
          exact absurd (ih.mpr hmem) (by omega)

theorem jsIndexOf_nonneg_iff (l : List Int) (x : Int) :
    0 ≤ jsIndexOf l x ↔ x ∈ l := by
  have h1 := jsIndexOf_eq_neg_one_iff l x
  have h2 := jsIndexOf_ge_neg_one l x
  constructor
  · intro h
    by_contra hmem
    have := h1.mpr hmem
    omega
  · intro hmem
    by_cases h : jsIndexOf l x = -1
    · exact absurd (h1.mp h) (by simp [hmem])
    · omega

theorem mem_of_mem_dropLast {l : List Int} {x : Int} (h : x ∈ l.dropLast) :
    x ∈ l := by
  induction l with
  | nil => simp at h
  | cons a rest ih =>
    cases rest with
    | nil => simp at h
    | cons b rest2 =>
      simp only [List.dropLast, List.mem_cons] at h ⊢
      rcases h with h | h
      · exact Or.inl h
      · exact Or.inr (by simpa using ih h)

/-- C5: clicking the header select-all checkbox toggles: when
selectedItemIds compares equal to allItemIds (sandbox.util.compare, deep
equality of the arrays) the selection empties and husky.datagrid.all.deselect
is emitted; otherwise selectedItemIds becomes allItemIds.slice(0), an array
equal in value to allItemIds (object identity is outside the value model;
the slice in the source is a fresh copy), and husky.datagrid.all.select is
emitted carrying exactly those ids. -/
theorem selectAllItems_toggle (s : SelState) :
    (s.selectedItemIds = s.allItemIds →
      selectAllItems s =
        ({ s with selectedItemIds := [] }, [Event.allDeselect])) ∧
    (s.selectedItemIds ≠ s.allItemIds →
      (selectAllItems s).1.selectedItemIds = s.allItemIds ∧
      (selectAllItems s).1.allItemIds = s.allItemIds ∧
      (selectAllItems s).2 = [Event.allSelect s.allItemIds]) := by
  constructor
  · intro h
    simp [selectAllItems, h]
  · intro h
    simp [selectAllItems, h]

/-- Witness for C5: both branches of the toggle at concrete states. -/
theorem selectAllItems_toggle_witness :
    (selectAllItems { allItemIds := [1, 2], selectedItemIds := [1, 2] }).1.selectedItemIds
        = [] ∧
    (selectAllItems { allItemIds := [1, 2], selectedItemIds := [1] }).1.selectedItemIds
        = [1, 2] := by
  constructor
  · rw [(selectAllItems_toggle { allItemIds := [1, 2], selectedItemIds := [1, 2] }).1
      (by decide)]
  · exact ((selectAllItems_toggle { allItemIds := [1, 2], selectedItemIds := [1] }).2
      (by decide)).1

/-- C7: removeRow erases the first occurrence of the id from
selectedItemIds (List.erase: the id is removed at its indexOf position when
present and the list is unchanged when absent, every other entry staying in
place), it never touches allItemIds, and it emits
husky.datagrid.row.removed exactly once per call. -/
theorem removeRow_frame (s : SelState) (id : Int) :
    (removeRow s id).1.selectedItemIds = s.selectedItemIds.erase id ∧
    (removeRow s id).1.allItemIds = s.allItemIds ∧
    (removeRow s id).2 = [Event.rowRemoved id] := by
  by_cases h : jsIndexOf s.selectedItemIds id ≥ 0
  · simp [removeRow, h]
  · have hmem : id ∉ s.selectedItemIds := by
      intro hm
      exact h ((jsIndexOf_nonneg_iff _ _).mpr hm)
    simp [removeRow, h, List.erase_of_not_mem hmem]

/-- C10: in radio mode the selectItem handler pops the previous selection
before pushing the clicked id (when the id is falsy nothing is pushed), so
a selection of length at most one stays of length at most one. -/
theorem selectItemRadio_single (s : SelState) (itemId : Int)
    (h : s.selectedItemIds.length ≤ 1) :
    (selectItemRadio s itemId).1.selectedItemIds.length ≤ 1 := by
  have hdrop : s.selectedItemIds.dropLast.length = s.selectedItemIds.length - 1 :=
    List.length_dropLast _
  by_cases hid : (itemId != 0) = true
  · simp only [selectItemRadio, if_pos hid]
    simp only [List.length_append, List.length_singleton]
    omega
  · simp only [selectItemRadio, if_neg hid]
    omega

/-- Witness for C10 at a concrete state: a radio click on row 2 with row 1
selected leaves a single selected id. -/
theorem selectItemRadio_single_witness :
    (selectItemRadio { allItemIds := [1, 2], selectedItemIds := [1] } 2).1.selectedItemIds.length
      ≤ 1 :=
  selectItemRadio_single { allItemIds := [1, 2], selectedItemIds := [1] } 2 (by decide)

/-- C1 counterexample: the subset invariant does not survive the checkbox
selectItem handler.  In the state with no registered ids (a reachable state:
with options.template.row set, prepareTableRow at main.js:493-495 returns
the parsed custom template without ever pushing the row id into
this.allItemIds, so the rows in the DOM carry data-ids that allItemIds does
not hold), clicking the checkbox of a row with data-id 1 pushes 1 into
selectedItemIds while allItemIds stays empty. -/
theorem selection_subset_counterexample :
    selectionSubset { allItemIds := [], selectedItemIds := [] } ∧
    ¬ selectionSubset
        (selectItemCheckbox { allItemIds := [], selectedItemIds := [] } 1).1 := by
  constructor
  · intro x hx
    simp at hx
  · intro h
    have h1 : (1 : Int) ∈ (selectItemCheckbox
        { allItemIds := [], selectedItemIds := [] } 1).1.selectedItemIds := by
      decide
    exact absurd (h 1 h1) (by decide)

/-- C1 amended: the selection handlers preserve the subset invariant
provided the data-id of the clicked row, when truthy, is one of the
registered allItemIds (which holds for rows rendered through the built-in
row template, but not for rows of a custom options.template.row).
selectAllItems, removeRow and resetItemSelection preserve the invariant
unconditionally. -/
theorem selection_subset_amended (s : SelState) (itemId : Int)
    (hsub : selectionSubset s) (hid : itemId ≠ 0 → itemId ∈ s.allItemIds) :
    selectionSubset (selectItemCheckbox s itemId).1 ∧
    selectionSubset (selectItemRadio s itemId).1 ∧
    selectionSubset (selectAllItems s).1 ∧
    selectionSubset (removeRow s itemId).1 ∧
    selectionSubset (resetItemSelection s) := by
  refine ⟨?_, ?_, ?_, ?_, ?_⟩
  · by_cases h1 : jsIndexOf s.selectedItemIds itemId > -1
    · simp only [selectItemCheckbox, if_pos h1]
      intro x hx
      exact hsub x (List.mem_of_mem_erase hx)
    · by_cases h2 : (itemId != 0) = true
      · simp only [selectItemCheckbox, if_neg h1, if_pos h2]
        intro x hx
        rcases List.mem_append.mp hx with hm | hm
        · exact hsub x hm
        · rw [List.mem_singleton.mp hm]
          exact hid (by simpa using h2)
      · simp only [selectItemCheckbox, if_neg h1, if_neg h2]
        exact hsub
  · by_cases h2 : (itemId != 0) = true
    · simp only [selectItemRadio, if_pos h2]
      intro x hx
      rcases List.mem_append.mp hx with hm | hm
      · exact hsub x (mem_of_mem_dropLast hm)
      · rw [List.mem_singleton.mp hm]
        exact hid (by simpa using h2)
    · simp only [selectItemRadio, if_neg h2]
      intro x hx
      exact hsub x (mem_of_mem_dropLast hx)
  · by_cases h : s.selectedItemIds = s.allItemIds
    · simp only [selectAllItems, if_pos h]
      intro x hx
      exact absurd hx (List.not_mem_nil x)
    · simp only [selectAllItems, if_neg h]
      intro x hx
      exact hx
  · by_cases h : jsIndexOf s.selectedItemIds itemId ≥ 0
    · simp only [removeRow, if_pos h]
      intro x hx
      exact hsub x (List.mem_of_mem_erase hx)
    · simp only [removeRow, if_neg h]
      exact hsub
  · intro x hx
    exact absurd hx (List.not_mem_nil x)

/-- Witness for the amended C1 at a concrete state with one loaded and
selected row. -/
theorem selection_subset_amended_witness :
    selectionSubset (selectItemCheckbox { allItemIds := [5], selectedItemIds := [5] } 5).1 ∧
    selectionSubset (selectItemRadio { allItemIds := [5], selectedItemIds := [5] } 5).1 ∧
    selectionSubset (selectAllItems { allItemIds := [5], selectedItemIds := [5] }).1 ∧
    selectionSubset (removeRow { allItemIds := [5], selectedItemIds := [5] } 5).1 ∧
    selectionSubset (resetItemSelection { allItemIds := [5], selectedItemIds := [5] }) :=
  selection_subset_amended { allItemIds := [5], selectedItemIds := [5] } 5
    (fun _ hx => hx) (fun _ => by simp)

end Datagrid

namespace Datagrid

/-- C4: for a click on a header whose data-attribute is truthy and appears
in data.links.sortable with a truthy uritemplate, changeSorting sets
sort.attribute to that attribute and sets sort.direction to desc exactly
when the header span carries the ascending class and to asc otherwise; for
a header whose attribute is missing or not sortable it changes neither
field. -/
theorem changeSorting_toggle (sort : SortState) (sortable : List (String × String))
    (a : String) (asc : Bool) :
    (∀ url, a ≠ "" → jsObjectGet sortable a = some url → url ≠ "" →
      (changeSorting sort sortable a asc).1 =
        { attr := some a,
          direction := some (if asc then "desc" else "asc") }) ∧
    ((a = "" ∨ jsTruthyStr (jsObjectGet sortable a) = false) →
      (changeSorting sort sortable a asc).1 = sort) := by
  constructor
  · intro url h1 h2 h3
    have hc : (a != "" && jsTruthyStr (jsObjectGet sortable a)) = true := by
      simp [h1, h2, jsTruthyStr, h3]
    simp [changeSorting, hc]
  · intro h
    have hc : (a != "" && jsTruthyStr (jsObjectGet sortable a)) = false := by
      rcases h with h | h
      · simp [h]
      · simp [h]
    simp [changeSorting, hc]

/-- Witness for C4: a sortable column whose span carries the ascending
class toggles to desc; a click on an unsortable attribute leaves the sort
state alone. -/
theorem changeSorting_toggle_witness :
    (changeSorting { attr := none, direction := none }
        [("title", "/api/sort-by-title")] "title" true).1 =
      { attr := some "title", direction := some "desc" } ∧
    (changeSorting { attr := none, direction := none }
        [("title", "/api/sort-by-title")] "name" false).1 =
      { attr := none, direction := none } := by
  constructor
  · exact (changeSorting_toggle { attr := none, direction := none }
      [("title", "/api/sort-by-title")] "title" true).1 "/api/sort-by-title"
      (by decide) (by decide) (by decide)
  · exact (changeSorting_toggle { attr := none, direction := none }
      [("title", "/api/sort-by-title")] "name" false).2
      (Or.inr (by decide))

/-- C9: getUrl returns params.url unchanged when data links are already
loaded, when pagination is off, or when pageSize is unset (null or the
falsy 0); otherwise it appends the pageSize parameter behind an ampersand
when the url already contains a question mark and behind a question mark
otherwise, and appends the page parameter exactly when params.page is
greater than 1. -/
theorem getUrl_spec (o : DatagridOptions) (s : DatagridState) (params : LoadParams) :
    (dataLinksTruthy s = true → getUrl o s params = params.url) ∧
    (o.pagination = false → getUrl o s params = params.url) ∧
    (o.pageSize = none → getUrl o s params = params.url) ∧
    (dataLinksTruthy s = false → o.pagination = true →
      ∀ ps, o.pageSize = some ps → ps ≠ 0 →
        (jsGtOne params.page = false →
          getUrl o s params =
            params.url ++ (if strContainsChar params.url '?' then "&" else "?")
              ++ "pageSize=" ++ toString ps) ∧
        (∀ p, params.page = some p → p > 1 →
          getUrl o s params =
            params.url ++ (if strContainsChar params.url '?' then "&" else "?")
              ++ "pageSize=" ++ toString ps ++ "&page=" ++ toString p)) := by
  refine ⟨?_, ?_, ?_, ?_⟩
  · intro h
    simp [getUrl, h]
  · intro h
    by_cases hd : dataLinksTruthy s
    · simp [getUrl, hd]
    · cases hps : o.pageSize with
      | none => simp [getUrl, hd, hps]
      | some ps => simp [getUrl, hd, hps, h]
  · intro h
    by_cases hd : dataLinksTruthy s
    · simp [getUrl, hd]
    · simp [getUrl, hd, h]
  · intro hd hp ps hps hne
    constructor
    · intro hpg
      cases hpage : params.page with
      | none => simp [getUrl, hd, hps, hp, hne, hpage]
      | some p =>
        have hple : ¬ p > 1 := by
          simp only [jsGtOne, hpage] at hpg
          simpa using hpg
        simp [getUrl, hd, hps, hp, hne, hpage, hple]
    · intro p hpage hpgt
      simp [getUrl, hd, hps, hp, hne, hpage, hpgt]

/-- Witness for C9: a paginated request for page 3 of a page size 10. -/
theorem getUrl_spec_witness :
    getUrl
      { pagination := true, pageSize := some 10, showPages := none,
        hasRowTemplate := false }
      { data := none, allItemIds := [], selectedItemIds := [],
        sort := { attr := none, direction := none } }
      { url := "/api/items", page := some 3 } = "/api/items?pageSize=10&page=3" := by
  have h := ((getUrl_spec
      { pagination := true, pageSize := some 10, showPages := none,
        hasRowTemplate := false }
      { data := none, allItemIds := [], selectedItemIds := [],
        sort := { attr := none, direction := none } }
      { url := "/api/items", page := some 3 }).2.2.2
      rfl rfl 10 rfl (by decide)).2 3 rfl (by decide)
  rw [h]
  decide

end Datagrid

namespace SmartContent

/-- C8: setURI sets URI.hasChanged exactly when the freshly built query
string differs from the stored URI.str, emits data-changed exactly when it
differs and the stored string was non-empty (so not at startup), and
loadContent sends its one ajax request, for URI.str, exactly when
URI.hasChanged is set. -/
theorem setURI_loadContent_on_change (o : SCOptions) (d : OverlayData)
    (s t : SCState) (outcome : Except String (List ContentItem)) :
    ((setURI o d s).1.URI.hasChanged = true ↔ buildURI o d ≠ s.URI.str) ∧
    (Event.dataChanged ∈ (setURI o d s).2 ↔
      (buildURI o d ≠ s.URI.str ∧ s.URI.str ≠ "")) ∧
    ((loadContent t outcome).requests =
      if t.URI.hasChanged = true then [t.URI.str] else []) := by
  refine ⟨?_, ?_, ?_⟩
  · by_cases h : buildURI o d = s.URI.str
    · simp [setURI, h]
    · simp [setURI, h]
  · by_cases h : buildURI o d = s.URI.str
    · simp [setURI, h]
    · by_cases hstr : s.URI.str = ""
      · rw [hstr] at h
        simp [setURI, h, hstr]
      · simp [setURI, h, hstr]
  · by_cases h : t.URI.hasChanged = true
    · cases outcome <;> simp [loadContent, h]
    · simp [loadContent, h]

end SmartContent

/-- C3: a failed ajax fetch is only logged.  The error callback of the
datagrid load writes its three log lines and leaves the whole component
state (this.data, this.allItemIds, this.selectedItemIds) untouched, emits
nothing and sends no further request beyond the one that failed; the error
callback of the smart-content loadContent logs the error object and leaves
this.items and this.URI untouched.  The data-request event that shows in
the failing loadContent step is emitted before the fetch is sent
(part_000:817) and is the only event of the step: the failure itself adds
none. -/
theorem error_callbacks_log_only (o : Datagrid.DatagridOptions)
    (s : Datagrid.DatagridState) (params : Datagrid.LoadParams)
    (e : Datagrid.AjaxFailure) (t : SmartContent.SCState) (msg : String) :
    (Datagrid.load o s params (Except.error e)).state = s ∧
    (Datagrid.load o s params (Except.error e)).events = [] ∧
    (Datagrid.load o s params (Except.error e)).logs =
      ["An error occured while fetching data from: " ++ Datagrid.getUrl o s params,
       "textstatus: " ++ e.textStatus,
       "errorthrown " ++ e.errorThrown] ∧
    (Datagrid.load o s params (Except.error e)).requests =
      [Datagrid.getUrl o s params] ∧
    (SmartContent.loadContent t (Except.error msg)).state = t ∧
    (SmartContent.loadContent t (Except.error msg)).events =
      (if t.URI.hasChanged = true then [SmartContent.Event.dataRequest] else []) ∧
    (SmartContent.loadContent t (Except.error msg)).logs =
      (if t.URI.hasChanged = true then [msg] else []) ∧
    (SmartContent.loadContent t (Except.error msg)).requests =
      (if t.URI.hasChanged = true then [t.URI.str] else []) := by
  refine ⟨rfl, rfl, rfl, rfl, ?_, ?_, ?_, ?_⟩ <;>
    by_cases h : t.URI.hasChanged = true <;>
      simp [SmartContent.loadContent, h]

namespace Datagrid

theorem length_intRange (a b : Int) : (intRange a b).length = (b + 1 - a).toNat := by
  simp [intRange]

theorem mem_intRange {a b x : Int} : x ∈ intRange a b ↔ a ≤ x ∧ x ≤ b := by
  simp only [intRange, List.mem_map, List.mem_range]
  constructor
  · rintro ⟨n, hn, rfl⟩
    omega
  · intro ⟨ha, hb⟩
    exact ⟨(x - a).toNat, by omega, by omega⟩

theorem nodup_intRange (a b : Int) : (intRange a b).Nodup :=
  (List.nodup_range _).map (fun m n h => by omega)

theorem intRange_append (a b c : Int) (h1 : a ≤ b + 1) (h2 : b ≤ c) :
    intRange a b ++ intRange (b + 1) c = intRange a c := by
  have hm : (c + 1 - a).toNat = (b + 1 - a).toNat + (c - b).toNat := by omega
  have hn : (c + 1 - (b + 1)).toNat = (c - b).toNat := by omega
  unfold intRange
  rw [hm, hn, List.range_add, List.map_append, List.map_map]
  congr 1
  apply List.map_congr_left
  intro k hk
  simp only [Function.comp_apply]
  omega

/-- The pagination entries as one closed form: the plain pages from 1 up to
the current page exclusive, then the pages from the current page up to
pagesDisplay with the current one marked selected.  Holds for every current
page p between 1 and the display count d; for p equal to 1 the first part
is empty. -/
theorem paginationPageNavigation_eq (p d : Int) (h1 : 1 ≤ p) (h2 : p ≤ d) :
    paginationPageNavigation p d =
      (intRange 1 (p - 1)).map
          (fun i => ({ page := i, isSelected := false } : PageItem))
        ++ (intRange p d).map
          (fun i => ({ page := i, isSelected := p == i } : PageItem)) := by
  have hlen : ((intRange p d).map
      (fun i => ({ page := i, isSelected := p == i } : PageItem))).length
        = (d + 1 - p).toNat := by
    simp [intRange]
  have hcast : (((d + 1 - p).toNat : Nat) : Int) = d + 1 - p := by omega
  simp only [paginationPageNavigation]
  rw [hlen, hcast]
  by_cases hp : 1 < p
  · rw [if_pos (by omega)]
    have e1 : p - (d - (d + 1 - p)) = 1 := by ring
    rw [e1]
  · have hp1 : p = 1 := by omega
    subst hp1
    rw [if_neg (by omega)]
    norm_num [intRange]

/-- C2 amended: for a current page p with 1 <= p <= pagesDisplay = d the
template renders exactly d entries whose page numbers are the contiguous
window 1..d, the current page appears exactly once among them, and an
entry carries the is-selected class exactly when it is the entry of the
current page.  (For p greater than d the window of d pages p-d..p-1 omits
the current page: see the counterexample.) -/
theorem paginationPageNavigation_window (p d : Int) (h1 : 1 ≤ p) (h2 : p ≤ d) :
    (paginationPageNavigation p d).length = d.toNat ∧
    (paginationPageNavigation p d).map PageItem.page = intRange 1 d ∧
    ((paginationPageNavigation p d).map PageItem.page).count p = 1 ∧
    (∀ item ∈ paginationPageNavigation p d, (item.isSelected = true ↔ item.page = p)) := by
  have heq := paginationPageNavigation_eq p d h1 h2
  have happ := intRange_append 1 (p - 1) d (by omega) (by omega)
  rw [show p - 1 + 1 = p from by ring] at happ
  have hmap : (paginationPageNavigation p d).map PageItem.page = intRange 1 d := by
    rw [heq, List.map_append, List.map_map, List.map_map]
    simpa [Function.comp_def] using happ
  refine ⟨?_, hmap, ?_, ?_⟩
  · have hl := congrArg List.length hmap
    rw [List.length_map, length_intRange] at hl
    omega
  · rw [hmap]
    exact List.count_eq_one_of_mem (nodup_intRange 1 d) (mem_intRange.mpr ⟨h1, h2⟩)
  · intro item hitem
    rw [heq] at hitem
    rcases List.mem_append.mp hitem with hm | hm
    · obtain ⟨i, hi, rfl⟩ := List.mem_map.mp hm
      have hbd := mem_intRange.mp hi
      constructor
      · intro habs
        exact absurd habs (by simp)
      · intro hip
        have hip2 : i = p := hip
        exfalso
        omega
    · obtain ⟨i, hi, rfl⟩ := List.mem_map.mp hm
      constructor
      · intro hsel
        have hsel2 : (p == i) = true := hsel
        exact (beq_iff_eq.mp hsel2).symm
      · intro hip
        have hip2 : i = p := hip
        show (p == i) = true
        exact beq_iff_eq.mpr hip2.symm

/-- C2 counterexample: at current page 2 with display count 1 (both within
the quantification of the claim) the template renders the single entry for
page 1: the current page does not appear and no entry carries the
is-selected class, refuting that the current page always appears exactly
once with its entry selected. -/
theorem paginationPageNavigation_counterexample :
    (1 : Int) ≤ 2 ∧ (1 : Int) ≤ 1 ∧
    (paginationPageNavigation 2 1).length = 1 ∧
    ((2 : Int) ∉ (paginationPageNavigation 2 1).map PageItem.page) ∧
    (∀ item ∈ paginationPageNavigation 2 1, item.isSelected = false) := by
  decide

/-- Witness for the amended C2 at page 3 of a display count 5. -/
theorem paginationPageNavigation_window_witness :
    (paginationPageNavigation 3 5).length = 5 ∧
    (paginationPageNavigation 3 5).map PageItem.page = intRange 1 5 ∧
    ((paginationPageNavigation 3 5).map PageItem.page).count 3 = 1 ∧
    (∀ item ∈ paginationPageNavigation 3 5, (item.isSelected = true ↔ item.page = 3)) := by
  have h := paginationPageNavigation_window 3 5 (by decide) (by decide)
  simpa using h

end Datagrid

namespace SmartContent

theorem renderContentEntries_eq_numbered (v : Int) (l : List ContentItem) :
    ∀ i : Nat, renderContentEntries i v l
      = numberedEntries i (l.take (v - (i : Int)).toNat) := by
  induction l with
  | nil =>
    intro i
    simp [renderContentEntries, numberedEntries]
  | cons item rest ih =>
    intro i
    by_cases h : (i : Int) < v
    · have htake : (v - (i : Int)).toNat = (v - ((i : Int) + 1)).toNat + 1 := by
        omega
      have hcast : (((i + 1 : Nat)) : Int) = (i : Int) + 1 := by push_cast; ring
      simp only [renderContentEntries, if_pos h, htake, List.take_succ_cons,
        numberedEntries]
      rw [ih (i + 1), hcast]
    · have h0 : (v - (i : Int)).toNat = 0 := by omega
      simp [renderContentEntries, h, h0, numberedEntries]

theorem length_numberedEntries (l : List ContentItem) :
    ∀ i : Nat, (numberedEntries i l).length = l.length := by
  induction l with
  | nil => intro i; simp [numberedEntries]
  | cons item rest ih => intro i; simp [numberedEntries, ih]

theorem map_num_numberedEntries (l : List ContentItem) :
    ∀ i : Nat, (numberedEntries i l).map ContentEntry.num
      = List.range' (i + 1) l.length := by
  induction l with
  | nil => intro i; simp [numberedEntries]
  | cons item rest ih =>
    intro i
    simp only [numberedEntries, List.map_cons, List.length_cons, List.range'_succ]
    rw [ih (i + 1)]

theorem map_pair_numberedEntries (l : List ContentItem) :
    ∀ i : Nat, (numberedEntries i l).map (fun e => (e.dataId, e.value))
      = l.map (fun it => (it.id, it.name)) := by
  induction l with
  | nil => intro i; simp [numberedEntries]
  | cons item rest ih =>
    intro i
    simp only [numberedEntries, List.map_cons]
    rw [ih (i + 1)]

/-- C6: when this.items is non-empty, renderContent renders the item list
with exactly min(items.length, itemsVisible) entries, in the order of
this.items and numbered consecutively from 1, and renders the footer; when
this.items is empty it renders the no-content template and detaches the
footer instead. -/
theorem renderContent_spec (s : SCState) :
    (s.items ≠ [] →
      (renderContent s).footer = FooterAction.rendered ∧
      ∃ entries,
        (renderContent s).view = SmartContentView.itemList entries ∧
        entries.length = min s.items.length s.itemsVisible.toNat ∧
        entries.map ContentEntry.num = List.range' 1 entries.length ∧
        entries.map (fun e => (e.dataId, e.value)) =
          (s.items.take s.itemsVisible.toNat).map (fun it => (it.id, it.name))) ∧
    (s.items = [] →
      (renderContent s).view = SmartContentView.noContent ∧
      (renderContent s).footer = FooterAction.detached) := by
  constructor
  · intro hne
    have hlen : s.items.length ≠ 0 := by
      intro h
      exact hne (List.length_eq_zero.mp h)
    have hview : renderContentEntries 0 s.itemsVisible s.items
        = numberedEntries 0 (s.items.take s.itemsVisible.toNat) := by
      rw [renderContentEntries_eq_numbered s.itemsVisible s.items 0]
      norm_num
    refine ⟨by simp [renderContent, hlen],
      numberedEntries 0 (s.items.take s.itemsVisible.toNat), ?_, ?_, ?_, ?_⟩
    · simp [renderContent, hlen, hview]
    · rw [length_numberedEntries, List.length_take, Nat.min_comm]
    · rw [map_num_numberedEntries, length_numberedEntries]
    · rw [map_pair_numberedEntries]
  · intro hempty
    have hlen : ¬ s.items.length ≠ 0 := by simp [hempty]
    constructor
    · simp [renderContent, hlen]
    · simp [renderContent, hlen]

/-- Witness for C6: three items with two visible render the footer and the
entries for the first two items numbered 1 and 2; no items render the
no-content view with the footer detached. -/
theorem renderContent_spec_witness :
    ((renderContent
        { itemsVisible := 2,
          items := [{ id := 4, name := "a" }, { id := 5, name := "b" },
                    { id := 6, name := "c" }],
          URI := { str := "", hasChanged := false } }).footer
      = FooterAction.rendered) ∧
    ((renderContent
        { itemsVisible := 2, items := [],
          URI := { str := "", hasChanged := false } }).view
      = SmartContentView.noContent) := by
  constructor
  · exact ((renderContent_spec
      { itemsVisible := 2,
        items := [{ id := 4, name := "a" }, { id := 5, name := "b" },
                  { id := 6, name := "c" }],
        URI := { str := "", hasChanged := false } }).1 (by decide)).1
  · exact ((renderContent_spec
      { itemsVisible := 2, items := [],
        URI := { str := "", hasChanged := false } }).2 rfl).1

end SmartContent
